import Mathlib

/-!
Verification of the real-time chat streaming client of
kubera-wealth-insights (src/hooks/useChatWebSocket.ts).

The hook is embedded shallowly: the mutable refs and the published React
state become one record `HookState`; each transport callback (onopen,
onmessage, onclose) and each exposed operation (connect, disconnect,
sendMessage) becomes a pure function `HookState → HookState × List Effect`,
where `Effect` records the observable side actions (frames sent, sockets
closed, timers scheduled or cancelled, user callbacks invoked).
JavaScript truthiness of optional fields is modelled explicitly
(`jsStr`, `jsOrStr`, `jsTruthyBool`, `jsTruthyStr`, `jsOrArr`).
-/

namespace KuberaWS

/-- WebSocket readyState values (CONNECTING / OPEN / CLOSING / CLOSED). -/
inductive ReadyState where
  | connecting
  | opened
  | closing
  | closed
deriving DecidableEq

/-- One entry of the tool status list (ToolStatus in the source). Field
values coming from a dynamic payload may be absent, hence Option. -/
structure ToolStatus where
  tool_name : Option String
  tool_id : Option String
  status : String
  timestamp : Option String
deriving DecidableEq

/-- The four rate-limit counters (current or limits quadruple). -/
structure RateQuad where
  burst : Int
  per_chat : Int
  hourly : Int
  daily : Int
deriving DecidableEq

/-- RateLimits in the source: a current-usage quadruple and a limits
quadruple, each possibly absent at runtime. -/
structure RateLimits where
  current : Option RateQuad
  limits : Option RateQuad
deriving DecidableEq

/-- ChartData in the source. -/
structure ChartData where
  chart_url : String
  chart_symbol : Option String
  chart_available : Bool
deriving DecidableEq

/-- ChatWebSocketState: the published React state of the hook. -/
structure ChatWebSocketState where
  isConnected : Bool
  isStreaming : Bool
  streamingContent : String
  error : Option String
  toolStatus : List ToolStatus
  rateLimits : Option RateLimits
  rateLimitExceeded : Bool
  chartData : Option ChartData
deriving DecidableEq

/-- The initial published state (useState initializer, lines 67-76). -/
def initialState : ChatWebSocketState :=
  { isConnected := false
    isStreaming := false
    streamingContent := ""
    error := none
    toolStatus := []
    rateLimits := none
    rateLimitExceeded := false
    chartData := none }

/-- lastMessageMetadataRef contents: metadata accumulated for the current
in-flight assistant message. -/
structure MessageMetadata where
  tokens_used : Option Int := none
  tools_used : Option (List (Option String)) := none
  chart_url : Option String := none
deriving DecidableEq

/-- A parsed inbound JSON object (WSMessage in the source): a mandatory
type discriminator plus the dynamic fields the handlers read; a field the
payload does not carry is none (JavaScript undefined). -/
structure WSMessage where
  type : String
  content : Option String := none
  chart_available : Option Bool := none
  chart_url : Option String := none
  stock_symbol : Option String := none
  message : Option String := none
  tokens_used : Option Int := none
  tools_used : Option (List (Option String)) := none
  tool_name : Option String := none
  tool_id : Option String := none
  timestamp : Option String := none
  message_id : Option String := none
  user_id : Option String := none
  current_usage : Option RateQuad := none
  limits : Option RateQuad := none
deriving DecidableEq

/-- A raw inbound payload: either text that fails JSON.parse, or a parsed
object. -/
inductive RawPayload where
  | malformed
  | json (data : WSMessage)
deriving DecidableEq

/-- The transport handle held in wsRef, reduced to its readyState. -/
structure Socket where
  readyState : ReadyState
deriving DecidableEq

/-- The full mutable state of the hook: the published React state plus
every useRef cell.  Timer refs are modelled by whether a timer handle is
currently stored (pending). -/
structure HookState where
  state : ChatWebSocketState
  wsRef : Option Socket
  reconnectTimeoutRef : Bool
  streamingContentRef : String
  reconnectAttemptsRef : Nat
  pingIntervalRef : Bool
  lastMessageMetadataRef : MessageMetadata
deriving DecidableEq

/-- An outbound JSON frame. -/
structure OutPayload where
  type : String
  chat_id : Option String := none
  message : Option String := none
deriving DecidableEq

/-- Observable side actions of the hook. -/
inductive Effect where
  | sendFrame (p : OutPayload)
  | closeSocket (code : Option Nat) (reason : Option String)
  | startHeartbeat
  | clearHeartbeat
  | clearReconnectTimer
  | scheduleReconnect (delayMs : Nat)
  | scheduleToolDismiss (name : Option String)
  | callMessageComplete (content : String) (meta : MessageMetadata)
  | callChartGenerated (cd : ChartData)
  | callRateLimitExceeded (msg : String)
  | callError (msg : String)
deriving DecidableEq

/-- maxReconnectAttempts = 5 (line 85). -/
def maxReconnectAttempts : Nat := 5

/-- reconnectBaseDelay = 3000 (line 86). -/
def reconnectBaseDelay : Nat := 3000

/-- JavaScript string coercion of a possibly-undefined value, as in
streamingContentRef.current += data.content. -/
def jsStr : Option String → String
  | some s => s
  | none => "undefined"

/-- JavaScript `x || d` for a possibly-undefined string: the empty string
is falsy. -/
def jsOrStr (v : Option String) (d : String) : String :=
  match v with
  | some s => if s = "" then d else s
  | none => d

/-- JavaScript truthiness of a possibly-undefined boolean. -/
def jsTruthyBool : Option Bool → Bool
  | some b => b
  | none => false

/-- JavaScript truthiness of a possibly-undefined string: undefined and
the empty string are falsy. -/
def jsTruthyStr : Option String → Bool
  | some s => decide (s ≠ "")
  | none => false

/-- JavaScript `a || b` where `a` is a possibly-undefined array: an array
is always truthy. -/
def jsOrArr (a b : Option (List (Option String))) : Option (List (Option String)) :=
  match a with
  | some l => some l
  | none => b

/-- ws.onopen (lines 104-115): reset the reconnect counter, publish
isConnected = true with the error cleared, start the heartbeat interval. -/
def onOpen (s : HookState) : HookState × List Effect :=
  ({ s with
      reconnectAttemptsRef := 0
      state := { s.state with isConnected := true, error := none }
      pingIntervalRef := true },
   [Effect.startHeartbeat])

/-- The switch on data.type inside ws.onmessage (lines 122-274), one
branch per case label, with the default case a no-op. -/
def handleMessage (data : WSMessage) (s : HookState) : HookState × List Effect :=
  if data.type = "connection" then (s, [])
  else if data.type = "rate_limit_info" then
    ({ s with state := { s.state with
        rateLimits := some { current := data.current_usage, limits := data.limits } } }, [])
  else if data.type = "message_received" then (s, [])
  else if data.type = "tool_executing" then
    ({ s with
        state := { s.state with toolStatus := s.state.toolStatus ++
          [{ tool_name := data.tool_name, tool_id := data.tool_id,
             status := "executing", timestamp := data.timestamp }] }
        lastMessageMetadataRef := { s.lastMessageMetadataRef with
          tools_used := some ((s.lastMessageMetadataRef.tools_used.getD []) ++
            [data.tool_name]) } },
     [])
  else if data.type = "tool_complete" then
    ({ s with state := { s.state with toolStatus := s.state.toolStatus.map (fun t =>
        if t.tool_name = data.tool_name then { t with status := "complete" } else t) } },
     [Effect.scheduleToolDismiss data.tool_name])
  else if data.type = "tool_error" then
    ({ s with state := { s.state with toolStatus := s.state.toolStatus.map (fun t =>
        if t.tool_name = data.tool_name then { t with status := "error" } else t) } },
     [])
  else if data.type = "text_chunk" then
    let newContent := s.streamingContentRef ++ jsStr data.content
    ({ s with
        streamingContentRef := newContent
        state := { s.state with isStreaming := true, streamingContent := newContent } },
     [])
  else if data.type = "chart_generated" then
    if jsTruthyBool data.chart_available && jsTruthyStr data.chart_url then
      let cd : ChartData :=
        { chart_url := jsStr data.chart_url
          chart_symbol := data.stock_symbol
          chart_available := true }
      ({ s with
          state := { s.state with chartData := some cd }
          lastMessageMetadataRef := { s.lastMessageMetadataRef with
            chart_url := data.chart_url } },
       [Effect.callChartGenerated cd])
    else (s, [])
  else if data.type = "message_complete" then
    let finalContent := s.streamingContentRef
    let meta : MessageMetadata :=
      { tokens_used := data.tokens_used
        tools_used := jsOrArr data.tools_used s.lastMessageMetadataRef.tools_used
        chart_url := s.lastMessageMetadataRef.chart_url }
    ({ s with
        streamingContentRef := ""
        lastMessageMetadataRef := {}
        state := { s.state with
          isStreaming := false
          streamingContent := ""
          toolStatus := []
          chartData := none } },
     [Effect.callMessageComplete finalContent meta])
  else if data.type = "rate_limit_exceeded" then
    let errorMsg := jsOrStr data.message "Rate limit exceeded. Please wait."
    ({ s with state := { s.state with
        error := some errorMsg
        isStreaming := false
        rateLimitExceeded := true } },
     [Effect.callRateLimitExceeded errorMsg, Effect.callError errorMsg])
  else if data.type = "error" then
    let errMessage := jsOrStr data.message "An error occurred"
    ({ s with state := { s.state with error := some errMessage, isStreaming := false } },
     [Effect.callError errMessage])
  else if data.type = "pong" then (s, [])
  else (s, [])

/-- ws.onmessage (lines 117-278): JSON.parse inside try/catch; a parse
failure is caught and only logged, so it changes nothing. -/
def onMessage (raw : RawPayload) (s : HookState) : HookState × List Effect :=
  match raw with
  | RawPayload.malformed => (s, [])
  | RawPayload.json data => handleMessage data s

/-- ws.onerror (lines 280-283). -/
def onSocketError (s : HookState) : HookState × List Effect :=
  ({ s with state := { s.state with error := some "Connection error" } }, [])

/-- The backoff computation inside ws.onclose (lines 304-307):
min(reconnectBaseDelay * 2 ^ (attempt - 1), 30000). -/
def reconnectDelay (attempt : Nat) : Nat :=
  min (reconnectBaseDelay * 2 ^ (attempt - 1)) 30000

/-- ws.onclose (lines 285-318): clear the heartbeat, publish
isConnected = false; return without retrying on codes 1000, 4001, 4003;
otherwise schedule one reconnect with exponential backoff while attempts
remain, and surface a terminal error once they are exhausted. -/
def onClose (code : Nat) (s : HookState) : HookState × List Effect :=
  let pingEffects := if s.pingIntervalRef then [Effect.clearHeartbeat] else []
  let s1 := { s with
    pingIntervalRef := false
    state := { s.state with isConnected := false } }
  if code = 1000 ∨ code = 4001 ∨ code = 4003 then
    (s1, pingEffects)
  else if s.reconnectAttemptsRef < maxReconnectAttempts then
    let attempts := s.reconnectAttemptsRef + 1
    ({ s1 with reconnectAttemptsRef := attempts, reconnectTimeoutRef := true },
     pingEffects ++ [Effect.scheduleReconnect (reconnectDelay attempts)])
  else
    ({ s1 with state := { s1.state with
        error := some "Failed to reconnect. Please refresh the page." } },
     pingEffects ++ [Effect.callError "Failed to reconnect. Please refresh the page."])

/-- connect (lines 90-102): bail out without a token; close any existing
connection (ws.close() with no arguments); store a fresh socket.  It does
not touch the timer refs or the attempt counter. -/
def connect (hasToken : Bool) (s : HookState) : HookState × List Effect :=
  if !hasToken then (s, [])
  else
    let closeEffects := match s.wsRef with
      | some _ => [Effect.closeSocket none none]
      | none => []
    ({ s with wsRef := some { readyState := ReadyState.connecting } },
     closeEffects)

/-- disconnect (lines 323-348): cancel the pending reconnect timeout and
the heartbeat interval, close the socket with code 1000, clear the
transient refs, and reset the published state to its initial value. -/
def disconnect (s : HookState) : HookState × List Effect :=
  let e1 := if s.reconnectTimeoutRef then [Effect.clearReconnectTimer] else []
  let e2 := if s.pingIntervalRef then [Effect.clearHeartbeat] else []
  let e3 := match s.wsRef with
    | some _ => [Effect.closeSocket (some 1000) (some "User disconnect")]
    | none => []
  ({ state := initialState
     wsRef := none
     reconnectTimeoutRef := false
     streamingContentRef := ""
     reconnectAttemptsRef := s.reconnectAttemptsRef
     pingIntervalRef := false
     lastMessageMetadataRef := {} },
   e1 ++ e2 ++ e3)

/-- sendMessage (lines 352-386): fail without sending when the socket is
missing or not OPEN, or when chatId is empty (falsy); otherwise transmit
the message frame, reset the streaming refs and publish the streaming
state, and return true. -/
def sendMessage (chatId message : String) (s : HookState) :
    Bool × HookState × List Effect :=
  match s.wsRef with
  | none => (false, s, [])
  | some ws =>
    if ws.readyState ≠ ReadyState.opened then (false, s, [])
    else if chatId = "" then (false, s, [])
    else
      (true,
       { s with
          streamingContentRef := ""
          lastMessageMetadataRef := {}
          state := { s.state with
            isStreaming := true
            streamingContent := ""
            error := none
            toolStatus := []
            chartData := none
            rateLimitExceeded := false } },
       [Effect.sendFrame
          { type := "message", chat_id := some chatId, message := some message }])

/-- Process a list of inbound payloads in arrival order, accumulating the
emitted effects. -/
def runMessages (frames : List RawPayload) (s : HookState) :
    HookState × List Effect :=
  frames.foldl (fun acc raw =>
    let r := onMessage raw acc.fst
    (r.fst, acc.snd ++ r.snd)) (s, [])

/-- The type tags handled by a named case of the onmessage switch. -/
def knownTypes : List String :=
  ["connection", "rate_limit_info", "message_received", "tool_executing",
   "tool_complete", "tool_error", "text_chunk", "chart_generated",
   "message_complete", "rate_limit_exceeded", "error", "pong"]

/-- The hook state right after initialization. -/
def initialHook : HookState :=
  { state := initialState
    wsRef := none
    reconnectTimeoutRef := false
    streamingContentRef := ""
    reconnectAttemptsRef := 0
    pingIntervalRef := false
    lastMessageMetadataRef := {} }

/-- A text_chunk payload carrying the given content. -/
def textChunkFrame (c : String) : RawPayload :=
  RawPayload.json { type := "text_chunk", content := some c }

/-- A message_complete payload with no extra fields. -/
def messageCompleteFrame : RawPayload :=
  RawPayload.json { type := "message_complete" }

/-- A rate_limit_exceeded payload with the given message field. -/
def rateLimitFrame (m : Option String) : WSMessage :=
  { type := "rate_limit_exceeded", message := m }

/-- A generic error payload with the given message field. -/
def errorFrame (m : Option String) : WSMessage :=
  { type := "error", message := m }

/-- A chart_generated payload. -/
def chartFrame (avail : Option Bool) (url : Option String)
    (sym : Option String) : WSMessage :=
  { type := "chart_generated", chart_available := avail, chart_url := url,
    stock_symbol := sym }

/-- Recognizer for scheduleReconnect effects. -/
def isScheduleReconnect : Effect → Bool
  | Effect.scheduleReconnect _ => true
  | _ => false

/-- A hook state mid-session: socket open, heartbeat running, a reconnect
timer pending. -/
def racingHook : HookState :=
  { state := { initialState with isConnected := true }
    wsRef := some { readyState := ReadyState.opened }
    reconnectTimeoutRef := true
    streamingContentRef := ""
    reconnectAttemptsRef := 3
    pingIntervalRef := true
    lastMessageMetadataRef := {} }

/-- A hook state whose socket is OPEN and nothing else is pending. -/
def openHook : HookState :=
  { initialHook with wsRef := some { readyState := ReadyState.opened } }

/-- C1: for every attempt count n in [1, maxAttempts] the reconnect delay
computed by ws.onclose equals min(3000 * 2^(n-1), 30000) milliseconds, is
monotonically non-decreasing in n, never exceeds the 30000 ms cap, and
traces the series 3000, 6000, 12000, 24000, 30000; a retryable close at
attempt counter n-1 schedules exactly that delay. -/
theorem reconnect_backoff_spec (n : Nat) (h1 : 1 ≤ n)
    (h2 : n ≤ maxReconnectAttempts) :
    reconnectDelay n = min (3000 * 2 ^ (n - 1)) 30000 ∧
    reconnectDelay n ≤ 30000 ∧
    (∀ m, n ≤ m → reconnectDelay n ≤ reconnectDelay m) ∧
    [reconnectDelay 1, reconnectDelay 2, reconnectDelay 3, reconnectDelay 4,
      reconnectDelay 5] = [3000, 6000, 12000, 24000, 30000] ∧
    (∀ s : HookState, s.reconnectAttemptsRef = n - 1 →
      ∀ code, code ≠ 1000 → code ≠ 4001 → code ≠ 4003 →
        Effect.scheduleReconnect (min (3000 * 2 ^ (n - 1)) 30000)
          ∈ (onClose code s).snd) := by
  refine ⟨rfl, Nat.min_le_right _ _, ?_, by decide, ?_⟩
  · intro m hm
    unfold reconnectDelay reconnectBaseDelay
    exact min_le_min
      (Nat.mul_le_mul_left _
        (Nat.pow_le_pow_right (by norm_num) (Nat.sub_le_sub_right hm 1)))
      le_rfl
  · intro s hs code hc1 hc2 hc3
    have hlt : s.reconnectAttemptsRef < maxReconnectAttempts := by
      unfold maxReconnectAttempts at h2 ⊢; omega
    have hn : s.reconnectAttemptsRef + 1 = n := by omega
    simp only [onClose]
    rw [if_neg (by simp [hc1, hc2, hc3]), if_pos hlt]
    simp [hn, reconnectDelay, reconnectBaseDelay]

/-- C1 witness at n = 5 and a concrete close. -/
theorem reconnect_backoff_spec_witness :
    Effect.scheduleReconnect (min (3000 * 2 ^ (5 - 1)) 30000)
      ∈ (onClose 1006 { initialHook with reconnectAttemptsRef := 4 }).snd :=
  (reconnect_backoff_spec 5 (by decide) (by decide)).2.2.2.2
    { initialHook with reconnectAttemptsRef := 4 } rfl 1006
    (by decide) (by decide) (by decide)

/-- C2: every Open transition resets the attempt counter to 0, so the
next retryable close after any open computes attempt 1 and schedules a
3000 ms delay, whatever the prior attempt count. -/
theorem open_resets_backoff (s : HookState) (code : Nat)
    (h1 : code ≠ 1000) (h2 : code ≠ 4001) (h3 : code ≠ 4003) :
    (onOpen s).fst.reconnectAttemptsRef = 0 ∧
    (onClose code (onOpen s).fst).fst.reconnectAttemptsRef = 1 ∧
    Effect.scheduleReconnect 3000 ∈ (onClose code (onOpen s).fst).snd := by
  refine ⟨rfl, ?_, ?_⟩ <;>
    simp [onOpen, onClose, h1, h2, h3, maxReconnectAttempts, reconnectDelay,
      reconnectBaseDelay]

/-- C2 witness on a fully exhausted counter followed by open then close. -/
theorem open_resets_backoff_witness :
    Effect.scheduleReconnect 3000
      ∈ (onClose 1006 (onOpen { initialHook with reconnectAttemptsRef := 5 }).fst).snd :=
  (open_resets_backoff { initialHook with reconnectAttemptsRef := 5 } 1006
    (by decide) (by decide) (by decide)).2.2

/-- C3: starting from an empty buffer, the inbound sequence
text_chunk A, text_chunk B, message_complete invokes the completion
callback exactly once with content AB, and both the content ref and the
published streamingContent are empty again afterwards. -/
theorem stream_roundtrip (s : HookState) (h : s.streamingContentRef = "") :
    (runMessages [textChunkFrame "A", textChunkFrame "B", messageCompleteFrame] s).snd
      = [Effect.callMessageComplete "AB"
          { tokens_used := none
            tools_used := s.lastMessageMetadataRef.tools_used
            chart_url := s.lastMessageMetadataRef.chart_url }] ∧
    (runMessages [textChunkFrame "A", textChunkFrame "B", messageCompleteFrame] s).fst.streamingContentRef
      = "" ∧
    (runMessages [textChunkFrame "A", textChunkFrame "B", messageCompleteFrame] s).fst.state.streamingContent
      = "" := by
  obtain ⟨st, ws, rt, sc, ra, pi, lm⟩ := s
  simp only at h
  subst h
  refine ⟨?_, ?_, ?_⟩ <;>
    simp [runMessages, onMessage, handleMessage, textChunkFrame,
      messageCompleteFrame, jsStr, jsOrArr]

/-- C3 witness from the freshly initialized hook state. -/
theorem stream_roundtrip_witness :
    (runMessages [textChunkFrame "A", textChunkFrame "B", messageCompleteFrame]
        initialHook).snd
      = [Effect.callMessageComplete "AB"
          { tokens_used := none
            tools_used := initialHook.lastMessageMetadataRef.tools_used
            chart_url := initialHook.lastMessageMetadataRef.chart_url }] :=
  (stream_roundtrip initialHook rfl).1

/-- C4: sendMessage fails, transmits nothing and leaves the entire hook
state untouched whenever the socket is absent or not OPEN, or chatId is
empty; when the socket is OPEN and chatId is non-empty it returns true and
transmits exactly the message frame. -/
theorem sendMessage_spec (s : HookState) (chatId message : String) :
    (s.wsRef = none → sendMessage chatId message s = (false, s, [])) ∧
    (∀ ws, s.wsRef = some ws → ws.readyState ≠ ReadyState.opened →
      sendMessage chatId message s = (false, s, [])) ∧
    (chatId = "" → sendMessage chatId message s = (false, s, [])) ∧
    (∀ ws, s.wsRef = some ws → ws.readyState = ReadyState.opened → chatId ≠ "" →
      (sendMessage chatId message s).1 = true ∧
      (sendMessage chatId message s).2.2 =
        [Effect.sendFrame
          { type := "message", chat_id := some chatId, message := some message }]) := by
  refine ⟨?_, ?_, ?_, ?_⟩
  · intro h
    simp [sendMessage, h]
  · intro ws hws hrs
    simp [sendMessage, hws, hrs]
  · intro h
    cases hws : s.wsRef with
    | none => simp [sendMessage, hws]
    | some ws =>
      by_cases hrs : ws.readyState = ReadyState.opened
      · simp [sendMessage, hws, hrs, h]
      · simp [sendMessage, hws, hrs]
  · intro ws hws hrs hc
    refine ⟨?_, ?_⟩ <;> simp [sendMessage, hws, hrs, hc]

/-- C4 witness: a send with empty chatId fails without effects, and a
send on an open socket with a chat id succeeds. -/
theorem sendMessage_spec_witness :
    sendMessage "" "hi" openHook = (false, openHook, []) ∧
    (sendMessage "c1" "hi" openHook).1 = true :=
  ⟨(sendMessage_spec openHook "" "hi").2.2.1 rfl,
   ((sendMessage_spec openHook "c1" "hi").2.2.2
      { readyState := ReadyState.opened } rfl rfl (by decide)).1⟩

/-- C5: a close with code 1000, 4001 or 4003 never schedules a reconnect;
any other close code with attempts remaining schedules exactly one
reconnect; once the five attempts are exhausted a terminal failure error
is surfaced and nothing further is scheduled. -/
theorem onClose_reconnect_policy (s : HookState) (code : Nat) :
    ((code = 1000 ∨ code = 4001 ∨ code = 4003) →
      ∀ d, Effect.scheduleReconnect d ∉ (onClose code s).snd) ∧
    (code ≠ 1000 → code ≠ 4001 → code ≠ 4003 →
      s.reconnectAttemptsRef < maxReconnectAttempts →
      ((onClose code s).snd.filter isScheduleReconnect).length = 1) ∧
    (code ≠ 1000 → code ≠ 4001 → code ≠ 4003 →
      maxReconnectAttempts ≤ s.reconnectAttemptsRef →
      (onClose code s).fst.state.error
        = some "Failed to reconnect. Please refresh the page." ∧
      (∀ d, Effect.scheduleReconnect d ∉ (onClose code s).snd) ∧
      Effect.callError "Failed to reconnect. Please refresh the page."
        ∈ (onClose code s).snd) := by
  refine ⟨?_, ?_, ?_⟩
  · intro hcode d
    simp only [onClose]
    rw [if_pos hcode]
    by_cases hp : s.pingIntervalRef <;> simp [hp]
  · intro h1 h2 h3 hlt
    simp only [onClose]
    rw [if_neg (by simp [h1, h2, h3]), if_pos hlt]
    by_cases hp : s.pingIntervalRef <;> simp [hp, isScheduleReconnect]
  · intro h1 h2 h3 hge
    simp only [onClose]
    rw [if_neg (by simp [h1, h2, h3]), if_neg (Nat.not_lt.mpr hge)]
    refine ⟨rfl, ?_, ?_⟩ <;>
      by_cases hp : s.pingIntervalRef <;> simp [hp]

/-- C5 witness covering the three close outcomes at concrete inputs. -/
theorem onClose_reconnect_policy_witness :
    Effect.scheduleReconnect 3000 ∉ (onClose 1000 initialHook).snd ∧
    ((onClose 1006 initialHook).snd.filter isScheduleReconnect).length = 1 ∧
    (onClose 1006 { initialHook with reconnectAttemptsRef := 5 }).fst.state.error
      = some "Failed to reconnect. Please refresh the page." :=
  ⟨(onClose_reconnect_policy initialHook 1000).1 (Or.inl rfl) 3000,
   (onClose_reconnect_policy initialHook 1006).2.1
     (by decide) (by decide) (by decide) (by decide),
   ((onClose_reconnect_policy { initialHook with reconnectAttemptsRef := 5 } 1006).2.2
     (by decide) (by decide) (by decide) (by decide)).1⟩

/-- Any payload whose type tag matches no case of the switch is handled
by the default branch: nothing changes and no effect is emitted. -/
theorem handleMessage_unknown (data : WSMessage) (s : HookState)
    (h : data.type ∉ knownTypes) : handleMessage data s = (s, []) := by
  simp only [knownTypes, List.mem_cons, List.mem_singleton, not_or] at h
  obtain ⟨h1, h2, h3, h4, h5, h6, h7, h8, h9, h10, h11, h12⟩ := h
  simp [handleMessage, h1, h2, h3, h4, h5, h6, h7, h8, h9, h10, h11, h12]

/-- C6: a payload that fails JSON.parse is swallowed by the catch and
changes nothing; a parsed object whose type tag is unknown falls into the
default branch and changes nothing; every payload is either handled by a
named case or leaves the state untouched (total decode). -/
theorem decode_safety (s : HookState) (data : WSMessage) :
    onMessage RawPayload.malformed s = (s, []) ∧
    (data.type ∉ knownTypes → onMessage (RawPayload.json data) s = (s, [])) ∧
    (data.type ∈ knownTypes ∨ onMessage (RawPayload.json data) s = (s, [])) := by
  refine ⟨rfl, ?_, ?_⟩
  · intro h
    exact handleMessage_unknown data s h
  · by_cases h : data.type ∈ knownTypes
    · exact Or.inl h
    · exact Or.inr (handleMessage_unknown data s h)

/-- C6 witness on a concrete unknown-typed payload. -/
theorem decode_safety_witness :
    onMessage (RawPayload.json { type := "mystery" }) initialHook
      = (initialHook, []) :=
  (decode_safety initialHook { type := "mystery" }).2.1 (by decide)

/-- C7: a rate_limit_exceeded or generic error frame carrying a
non-empty message m sets isStreaming to false and the error field to m,
leaves the connected flag exactly as it was, and emits no close of the
connection; for the message slow down the error field reads slow down. -/
theorem app_error_frames (s : HookState) (m : String) (hm : m ≠ "") :
    (handleMessage (rateLimitFrame (some m)) s).fst.state.isStreaming = false ∧
    (handleMessage (rateLimitFrame (some m)) s).fst.state.error = some m ∧
    (handleMessage (rateLimitFrame (some m)) s).fst.state.isConnected
      = s.state.isConnected ∧
    (∀ c r, Effect.closeSocket c r ∉ (handleMessage (rateLimitFrame (some m)) s).snd) ∧
    Effect.callRateLimitExceeded m ∈ (handleMessage (rateLimitFrame (some m)) s).snd ∧
    (handleMessage (errorFrame (some m)) s).fst.state.isStreaming = false ∧
    (handleMessage (errorFrame (some m)) s).fst.state.error = some m ∧
    (handleMessage (errorFrame (some m)) s).fst.state.isConnected
      = s.state.isConnected ∧
    (∀ c r, Effect.closeSocket c r ∉ (handleMessage (errorFrame (some m)) s).snd) ∧
    (handleMessage (rateLimitFrame (some "slow down")) s).fst.state.error
      = some "slow down" := by
  refine ⟨?_, ?_, ?_, ?_, ?_, ?_, ?_, ?_, ?_, ?_⟩ <;>
    simp [handleMessage, rateLimitFrame, errorFrame, jsOrStr, hm]

/-- C7 witness at the concrete slow-down frame on a streaming state. -/
theorem app_error_frames_witness :
    (handleMessage (rateLimitFrame (some "slow down"))
        { openHook with state := { openHook.state with isStreaming := true } }).fst.state.error
      = some "slow down" :=
  (app_error_frames
    { openHook with state := { openHook.state with isStreaming := true } }
    "slow down" (by decide)).2.1

/-- C8: disconnect clears the reconnect and heartbeat timer refs, empties
the transient buffers, resets the published state, closes the socket with
code 1000 when one exists, emits the cancel effects for whichever timers
were pending, schedules no reconnect itself, and the close event that
follows it (code 1000) schedules none either. -/
theorem disconnect_teardown (s : HookState) :
    (disconnect s).fst.reconnectTimeoutRef = false ∧
    (disconnect s).fst.pingIntervalRef = false ∧
    (disconnect s).fst.streamingContentRef = "" ∧
    (disconnect s).fst.lastMessageMetadataRef = {} ∧
    (disconnect s).fst.state = initialState ∧
    (s.wsRef.isSome = true →
      Effect.closeSocket (some 1000) (some "User disconnect") ∈ (disconnect s).snd) ∧
    (s.reconnectTimeoutRef = true →
      Effect.clearReconnectTimer ∈ (disconnect s).snd) ∧
    (s.pingIntervalRef = true → Effect.clearHeartbeat ∈ (disconnect s).snd) ∧
    (∀ d, Effect.scheduleReconnect d ∉ (disconnect s).snd) ∧
    (∀ d, Effect.scheduleReconnect d ∉ (onClose 1000 (disconnect s).fst).snd) := by
  refine ⟨rfl, rfl, rfl, rfl, rfl, ?_, ?_, ?_, ?_, ?_⟩
  · intro h
    cases hws : s.wsRef with
    | none => rw [hws] at h; simp at h
    | some ws => simp [disconnect, hws]
  · intro h
    simp [disconnect, h]
  · intro h
    simp [disconnect, h]
  · intro d
    by_cases h1 : s.reconnectTimeoutRef <;> by_cases h2 : s.pingIntervalRef <;>
      cases hws : s.wsRef <;> simp [disconnect, h1, h2, hws]
  · intro d
    simp [onClose, disconnect]

/-- C8 witness on a fully live session. -/
theorem disconnect_teardown_witness :
    Effect.closeSocket (some 1000) (some "User disconnect")
      ∈ (disconnect racingHook).snd ∧
    Effect.clearReconnectTimer ∈ (disconnect racingHook).snd ∧
    Effect.clearHeartbeat ∈ (disconnect racingHook).snd ∧
    Effect.scheduleReconnect 3000 ∉ (onClose 1000 (disconnect racingHook).fst).snd :=
  ⟨(disconnect_teardown racingHook).2.2.2.2.2.1 rfl,
   (disconnect_teardown racingHook).2.2.2.2.2.2.1 rfl,
   (disconnect_teardown racingHook).2.2.2.2.2.2.2.1 rfl,
   (disconnect_teardown racingHook).2.2.2.2.2.2.2.2.2 3000⟩

/-- C9 counterexample: calling connect with a valid token while a
reconnect timer is pending and the heartbeat is running leaves both timer
refs set and emits no timer-cancellation effect, so connect does not
cancel prior timers before opening the new connection. -/
theorem connect_cancels_timers_cex :
    (connect true racingHook).fst.reconnectTimeoutRef = true ∧
    (connect true racingHook).fst.pingIntervalRef = true ∧
    Effect.clearReconnectTimer ∉ (connect true racingHook).snd ∧
    Effect.clearHeartbeat ∉ (connect true racingHook).snd := by
  decide

/-- C9 amended: connect closes any pre-existing connection first and
keeps a single socket reference, but leaves the pending reconnect timer
and the heartbeat interval untouched (they are cleared only by onclose or
disconnect). -/
theorem connect_closes_previous (s : HookState) (h : s.wsRef.isSome = true) :
    (connect true s).fst.wsRef = some { readyState := ReadyState.connecting } ∧
    Effect.closeSocket none none ∈ (connect true s).snd ∧
    (connect true s).fst.reconnectTimeoutRef = s.reconnectTimeoutRef ∧
    (connect true s).fst.pingIntervalRef = s.pingIntervalRef := by
  cases hws : s.wsRef with
  | none => rw [hws] at h; simp at h
  | some ws => refine ⟨?_, ?_, ?_, ?_⟩ <;> simp [connect, hws]

/-- C9 amended-claim witness on the mid-session state. -/
theorem connect_closes_previous_witness :
    Effect.closeSocket none none ∈ (connect true racingHook).snd :=
  (connect_closes_previous racingHook rfl).2.1

/-- C10: a chart_generated frame with chart_available true but a missing
or empty chart_url is ignored entirely (state, metadata and callbacks all
untouched); with a non-empty url the chart callback fires with that url
and the url is recorded in the completion metadata; any chart recording
at all requires chart_available = true and a non-empty url. -/
theorem chart_requires_url (s : HookState) (url sym : Option String)
    (h : url = none ∨ url = some "") :
    handleMessage (chartFrame (some true) url sym) s = (s, []) ∧
    (∀ u, u ≠ "" →
      (handleMessage (chartFrame (some true) (some u) sym) s).snd
        = [Effect.callChartGenerated
            { chart_url := u, chart_symbol := sym, chart_available := true }] ∧
      (handleMessage (chartFrame (some true) (some u) sym)
          s).fst.lastMessageMetadataRef.chart_url = some u) ∧
    (∀ a u2, (handleMessage (chartFrame a u2 sym) s).snd ≠ [] →
      a = some true ∧ ∃ v, u2 = some v ∧ v ≠ "") := by
  refine ⟨?_, ?_, ?_⟩
  · rcases h with h | h <;> subst h <;>
      simp [handleMessage, chartFrame, jsTruthyBool, jsTruthyStr]
  · intro u hu
    refine ⟨?_, ?_⟩ <;>
      simp [handleMessage, chartFrame, jsTruthyBool, jsTruthyStr, jsStr, hu]
  · intro a u2 hne
    rcases a with _ | b
    · exact absurd (by simp [handleMessage, chartFrame, jsTruthyBool]) hne
    · cases b
      · exact absurd (by simp [handleMessage, chartFrame, jsTruthyBool]) hne
      · rcases u2 with _ | v
        · exact absurd (by simp [handleMessage, chartFrame, jsTruthyBool, jsTruthyStr]) hne
        · by_cases hv : v = ""
          · subst hv
            exact absurd
              (by simp [handleMessage, chartFrame, jsTruthyBool, jsTruthyStr]) hne
          · exact ⟨rfl, v, rfl, hv⟩

/-- C10 witness: available chart with empty url is dropped from a fresh
state. -/
theorem chart_requires_url_witness :
    handleMessage (chartFrame (some true) (some "") (some "TCS")) initialHook
      = (initialHook, []) :=
  (chart_requires_url initialHook (some "") (some "TCS") (Or.inr rfl)).1

end KuberaWS
